import Mathlib

/-
  Shallow embedding of src/src/exabgp/bgp/message/update/nlri/bgpls/tlvs/multitopology.py

  The Python module defines two classes:
    - class _Topology: holds the 4 reserved bits and the 12-bit multi-topology id
      of one decoded 16-bit word, and renders them as a JSON record.
    - class MTID: holds a list of _Topology values plus the optional raw bytes
      the list was decoded from, and exposes unpack, pack, json, equality,
      ordering stubs, str, len and hash.

  Modelling conventions:
    - a byte is Fin 256; a byte string is List Byte;
    - fallible operations return Except Err; Err.structError models the
      struct.error raised by struct.unpack on a slice shorter than 2 bytes,
      Err.notImplemented models RuntimeError with message Not implemented;
    - Python object identity: _Topology has no user-defined equality, so the
      list comparison inside MTID.eq compares entries by identity. Each
      Topology value carries an allocation token oid; distinct allocations
      receive distinct tokens, and unpack threads a starting token so that two
      separate unpack calls (called with disjoint token ranges) model two
      separate Python calls, whose freshly allocated entry objects are pairwise
      distinct;
    - the built-in string hash of CPython is randomized SipHash, so MTID.hashWith
      is parameterized by the string-hash function instead of fixing one.
-/

namespace MT

/-- A byte of the wire payload. -/
abbrev Byte := Fin 256

/-- Error values surfaced by the Python code: struct.error from struct.unpack
on a short slice, and RuntimeError with message Not implemented. -/
inductive Err where
  | structError
  | notImplemented
deriving DecidableEq, Repr

/-- Models class _Topology. Fields bits and tid are the constructor arguments;
oid is the allocation token standing for CPython object identity (the class
defines no equality, so comparison of two instances is identity comparison). -/
structure Topology where
  oid : Nat
  bits : Nat
  tid : Nat
deriving DecidableEq, Repr

/-- bin(n) with the 0b prefix stripped: the binary digit string of n, with a
single 0 digit for n = 0, as in Python. -/
def binStr (n : Nat) : String :=
  String.mk (Nat.toDigits 2 n)

/-- s[-4:] in Python: the last four characters of s, or all of s when it is
shorter than four characters. -/
def last4 (s : String) : String :=
  String.mk (s.toList.drop (s.toList.length - 4))

/-- _Topology.json: the record with the bits rendered as four left-zero-padded
binary digits and the id rendered in decimal. -/
def Topology.json (t : Topology) : String :=
  "\x7b \"bits\": \"" ++ last4 ("0000" ++ binStr t.bits) ++
    "\", \"multi-topology-id\": " ++ toString t.tid ++ " \x7d"

/-- Models class MTID: the decoded entries plus the optional raw byte cache
(constructor default packed=None). -/
structure MTID where
  topologies : List Topology
  packed : Option (List Byte)
deriving DecidableEq, Repr

/-- struct.unpack of two bytes with format !H: the big-endian 16-bit word. -/
def word16 (b0 b1 : Byte) : Nat :=
  b0.val * 256 + b1.val

/-- The loop body of MTID.unpack: walk the data two bytes at a time, split each
big-endian word into the high 4 bits and the low 12 bits, and allocate one
_Topology per word (tokens base, base+1, ...). A trailing 1-byte slice makes
struct.unpack raise struct.error. -/
def unpackTids (base : Nat) : List Byte → Except Err (List Topology)
  | [] => Except.ok []
  | [_] => Except.error Err.structError
  | b0 :: b1 :: rest =>
    let payload := word16 b0 b1
    let bits := payload >>> (16 - 4)
    let tid := payload &&& 0x0FFF
    match unpackTids (base + 1) rest with
    | Except.ok tids => Except.ok (Topology.mk base bits tid :: tids)
    | Except.error e => Except.error e

/-- MTID.unpack: decode the payload and store the exact input bytes as the raw
cache. base is the first free allocation token of the call. -/
def MTID.unpack (base : Nat) (data : List Byte) : Except Err MTID :=
  match unpackTids base data with
  | Except.ok tids => Except.ok (MTID.mk tids (some data))
  | Except.error e => Except.error e

/-- MTID.pack: return the raw cache when it is truthy; None and the empty byte
string are both falsy in Python, so both raise RuntimeError. -/
def MTID.pack (m : MTID) : Except Err (List Byte) :=
  match m.packed with
  | some (b :: bs) => Except.ok (b :: bs)
  | _ => Except.error Err.notImplemented

/-- Identity comparison of two _Topology instances: the class defines no
equality, so Python compares object identity. -/
def topologyIs (a b : Topology) : Bool :=
  a.oid == b.oid

/-- Python list equality applied to two lists of _Topology instances: equal
length and identity-equal elements pairwise. -/
def pyListEq (xs ys : List Topology) : Bool :=
  xs.length == ys.length && (List.zip xs ys).all fun p => topologyIs p.1 p.2

/-- MTID.eq models MTID.__eq__: self.topologies == other.topologies. -/
def MTID.eq (a b : MTID) : Bool :=
  pyListEq a.topologies b.topologies

/-- MTID.__lt__: raise RuntimeError with message Not implemented. -/
def MTID.lt (_a _b : MTID) : Except Err Bool :=
  Except.error Err.notImplemented

/-- MTID.__le__: raise RuntimeError with message Not implemented. -/
def MTID.le (_a _b : MTID) : Except Err Bool :=
  Except.error Err.notImplemented

/-- MTID.__gt__: raise RuntimeError with message Not implemented. -/
def MTID.gt (_a _b : MTID) : Except Err Bool :=
  Except.error Err.notImplemented

/-- MTID.__ge__: raise RuntimeError with message Not implemented. -/
def MTID.ge (_a _b : MTID) : Except Err Bool :=
  Except.error Err.notImplemented

/-- An uppercase hexadecimal digit. -/
def hexDigit (n : Nat) : Char :=
  if n < 10 then Char.ofNat (48 + n) else Char.ofNat (55 + n)

/-- The %02X rendering of one byte: two uppercase hexadecimal digits. -/
def hex2 (b : Byte) : String :=
  String.mk [hexDigit (b.val / 16), hexDigit (b.val % 16)]

/-- MTID.json: the entries rendered and joined with a comma, wrapped in
square brackets. -/
def MTID.json (m : MTID) : String :=
  "[" ++ String.intercalate ", " (m.topologies.map Topology.json) ++ "]"

/-- MTID.__str__: the colon-joined %02X rendering of the bytes returned by
pack; the exception of pack propagates. -/
def MTID.str (m : MTID) : Except Err String :=
  match MTID.pack m with
  | Except.ok bs => Except.ok (String.intercalate ":" (bs.map hex2))
  | Except.error e => Except.error e

/-- MTID.__hash__: hash(str(self)). The CPython string hash is an opaque seeded
function, so it is a parameter; the exception of str propagates. -/
def MTID.hashWith (strHash : String → Nat) (m : MTID) : Except Err Nat :=
  match MTID.str m with
  | Except.ok s => Except.ok (strHash s)
  | Except.error e => Except.error e

/-- MTID.__len__: len(self._packed); calling it on an instance whose cache is
None raises TypeError, collapsed here onto the error type. -/
def MTID.len (m : MTID) : Except Err Nat :=
  match m.packed with
  | some bs => Except.ok bs.length
  | none => Except.error Err.notImplemented

theorem twoStepInduction {α : Type} {P : List α → Prop} (h0 : P [])
    (h1 : ∀ x, P [x]) (h2 : ∀ x y l, P l → P (x :: y :: l)) : ∀ l, P l
  | [] => h0
  | [x] => h1 x
  | x :: y :: l => h2 x y l (twoStepInduction h0 h1 h2 l)

theorem unpackTids_even_spec :
    ∀ b : List Byte, b.length % 2 = 0 → ∀ base : Nat,
      ∃ tids, unpackTids base b = Except.ok tids ∧
        tids.length = b.length / 2 ∧
        ∀ i : Nat, tids[i]? =
          (b[2 * i]?).bind fun c0 =>
          (b[2 * i + 1]?).bind fun c1 =>
            some (Topology.mk (base + i) (word16 c0 c1 >>> (16 - 4))
              (word16 c0 c1 &&& 0x0FFF)) := by
  apply twoStepInduction
  · intro _ base
    refine ⟨[], rfl, rfl, ?_⟩
    intro i
    simp
  · intro x h
    simp at h
  · intro x y l IH h base
    have hl : l.length % 2 = 0 := by
      simp [List.length_cons] at h
      omega
    obtain ⟨tids, htids, hlen, hget⟩ := IH hl (base + 1)
    refine ⟨Topology.mk base (word16 x y >>> (16 - 4)) (word16 x y &&& 0x0FFF) :: tids,
      ?_, ?_, ?_⟩
    · simp [unpackTids, htids]
    · simp [hlen, List.length_cons]
      omega
    · intro i
      cases i with
      | zero => simp
      | succ j =>
        have e1 : 2 * (j + 1) = 2 * j + 1 + 1 := by omega
        rw [e1]
        have h' := hget j
        rw [show base + 1 + j = base + (j + 1) from by omega] at h'
        simpa using h'


theorem unpackTids_odd :
    ∀ b : List Byte, b.length % 2 = 1 → ∀ base : Nat,
      unpackTids base b = Except.error Err.structError := by
  apply twoStepInduction
  · intro h
    simp at h
  · intro x _ base
    rfl
  · intro x y l IH h base
    have hl : l.length % 2 = 1 := by
      simp [List.length_cons] at h
      omega
    simp [unpackTids, IH hl (base + 1)]

theorem word_reconstruct (w : Nat) :
    ((w >>> 12) <<< 12) ||| (w &&& 0x0FFF) = w := by
  have h1 : w &&& 0x0FFF = w % 2 ^ 12 := by
    have h := Nat.and_pow_two_sub_one_eq_mod w 12
    norm_num at h
    exact h
  rw [Nat.shiftRight_eq_div_pow, Nat.shiftLeft_eq, h1, Nat.mul_comm,
    ← Nat.mul_add_lt_is_or (Nat.mod_lt _ (by norm_num)) (w / 2 ^ 12),
    Nat.div_add_mod]


/-- Claim C1 (amended): for every nonempty even-length byte sequence b,
decoding b and then encoding the result returns exactly b. -/
theorem claim1_round_trip (b : List Byte) (base : Nat)
    (heven : b.length % 2 = 0) (hne : b ≠ []) :
    (MTID.unpack base b).bind MTID.pack = Except.ok b := by
  obtain ⟨tids, htids, -, -⟩ := unpackTids_even_spec b heven base
  cases b with
  | nil => exact absurd rfl hne
  | cons x xs =>
    simp [MTID.unpack, htids, MTID.pack, Except.bind]

/-- Claim C1 witness: the round trip holds at b = [0x10, 0x05]. -/
theorem claim1_witness :
    ([(0x10 : Byte), 0x05].length % 2 = 0) ∧ ([(0x10 : Byte), 0x05] ≠ []) ∧
    (MTID.unpack 0 [(0x10 : Byte), 0x05]).bind MTID.pack =
      Except.ok [(0x10 : Byte), 0x05] :=
  ⟨by decide, by decide, claim1_round_trip [(0x10 : Byte), 0x05] 0 (by decide) (by decide)⟩

/-- Claim C1 counterexample: the empty byte sequence has even length, yet
decoding it and then encoding raises, because the empty raw cache is falsy. -/
theorem claim1_counterexample :
    ([] : List Byte).length % 2 = 0 ∧
    (MTID.unpack 0 ([] : List Byte)).bind MTID.pack ≠ Except.ok ([] : List Byte) ∧
    (MTID.unpack 0 ([] : List Byte)).bind MTID.pack = Except.error Err.notImplemented :=
  ⟨rfl, fun h => Except.noConfusion h, rfl⟩

/-- Claim C2: the code compares entries by object identity, not structurally:
decoding the same two bytes twice yields fields whose entries agree on bits
and tid, yet equality returns false, contradicting the claimed structural
equality. Tokens 0 and 1 model the two distinct freshly allocated entries. -/
theorem claim2_identity_equality :
    MTID.unpack 0 [(0x10 : Byte), 0x05] =
      Except.ok (MTID.mk [Topology.mk 0 1 5] (some [0x10, 0x05])) ∧
    MTID.unpack 1 [(0x10 : Byte), 0x05] =
      Except.ok (MTID.mk [Topology.mk 1 1 5] (some [0x10, 0x05])) ∧
    MTID.eq (MTID.mk [Topology.mk 0 1 5] (some [0x10, 0x05]))
      (MTID.mk [Topology.mk 1 1 5] (some [0x10, 0x05])) = false :=
  ⟨rfl, rfl, rfl⟩

/-- Claim C3: decoding a byte sequence of odd length fails with the decode
error raised on the trailing 1-byte slice. -/
theorem claim3_odd_rejected (b : List Byte) (base : Nat) (hb : b.length % 2 = 1) :
    MTID.unpack base b = Except.error Err.structError := by
  simp [MTID.unpack, unpackTids_odd b hb base]

/-- Claim C3 witness: decoding the single byte 0x10 fails. -/
theorem claim3_witness :
    ([(0x10 : Byte)].length % 2 = 1) ∧
    MTID.unpack 0 [(0x10 : Byte)] = Except.error Err.structError :=
  ⟨by decide, claim3_odd_rejected [(0x10 : Byte)] 0 (by decide)⟩

/-- Claim C4: decoding one 16-bit word w yields bits = w >>> 12 and
tid = w &&& 0x0FFF, these reconstruct w as (bits <<< 12) ||| tid, and the
example w = 0x1005 gives bits 1 and tid 5. -/
theorem claim4_bit_split (base : Nat) (b0 b1 : Byte) :
    MTID.unpack base [b0, b1] =
      Except.ok (MTID.mk [Topology.mk base (word16 b0 b1 >>> 12) (word16 b0 b1 &&& 0x0FFF)]
        (some [b0, b1])) ∧
    ((word16 b0 b1 >>> 12) <<< 12) ||| (word16 b0 b1 &&& 0x0FFF) = word16 b0 b1 ∧
    word16 0x10 0x05 = 0x1005 ∧
    (0x1005 : Nat) >>> 12 = 1 ∧ (0x1005 : Nat) &&& 0x0FFF = 5 :=
  ⟨rfl, word_reconstruct (word16 b0 b1), rfl, rfl, rfl⟩

/-- Claim C5: decoding an even-length sequence yields length b / 2 entries, and
the i-th entry is the decode of the big-endian word of bytes 2i and 2i+1. -/
theorem claim5_entries (b : List Byte) (base : Nat) (heven : b.length % 2 = 0) :
    ∃ m : MTID, MTID.unpack base b = Except.ok m ∧
      m.topologies.length = b.length / 2 ∧
      ∀ i : Nat, m.topologies[i]? =
        (b[2 * i]?).bind fun c0 =>
        (b[2 * i + 1]?).bind fun c1 =>
          some (Topology.mk (base + i) (word16 c0 c1 >>> (16 - 4))
            (word16 c0 c1 &&& 0x0FFF)) := by
  obtain ⟨tids, h1, h2, h3⟩ := unpackTids_even_spec b heven base
  exact ⟨MTID.mk tids (some b), by simp [MTID.unpack, h1], h2, h3⟩

/-- Claim C5 witness: the characterization holds at the four-byte input
0x10 0x05 0x20 0x06. -/
theorem claim5_witness :
    ([(0x10 : Byte), 0x05, 0x20, 0x06].length % 2 = 0) ∧
    ∃ m : MTID, MTID.unpack 0 [(0x10 : Byte), 0x05, 0x20, 0x06] = Except.ok m ∧
      m.topologies.length = [(0x10 : Byte), 0x05, 0x20, 0x06].length / 2 ∧
      ∀ i : Nat, m.topologies[i]? =
        ([(0x10 : Byte), 0x05, 0x20, 0x06][2 * i]?).bind fun c0 =>
        ([(0x10 : Byte), 0x05, 0x20, 0x06][2 * i + 1]?).bind fun c1 =>
          some (Topology.mk (0 + i) (word16 c0 c1 >>> (16 - 4))
            (word16 c0 c1 &&& 0x0FFF)) :=
  ⟨by decide, claim5_entries [(0x10 : Byte), 0x05, 0x20, 0x06] 0 (by decide)⟩

/-- Claim C6: every ordering comparison between two fields fails with the
not-implemented error; ordering never returns a result. -/
theorem claim6_ordering_rejected (a b : MTID) :
    MTID.lt a b = Except.error Err.notImplemented ∧
    MTID.le a b = Except.error Err.notImplemented ∧
    MTID.gt a b = Except.error Err.notImplemented ∧
    MTID.ge a b = Except.error Err.notImplemented :=
  ⟨rfl, rfl, rfl, rfl⟩


/-- Claim C7 (amended): pack on a field built without a raw cache fails with
the not-implemented error, and pack on a field whose raw cache is present and
nonempty returns the cache unchanged. -/
theorem claim7_pack (tids : List Topology) (cache : List Byte) (hne : cache ≠ []) :
    MTID.pack (MTID.mk tids none) = Except.error Err.notImplemented ∧
    MTID.pack (MTID.mk tids (some cache)) = Except.ok cache := by
  refine ⟨rfl, ?_⟩
  cases cache with
  | nil => exact absurd rfl hne
  | cons x xs => rfl

/-- Claim C7 witness: pack at an entry list with a nonempty cache. -/
theorem claim7_witness :
    ([(0x10 : Byte), 0x05] ≠ []) ∧
    MTID.pack (MTID.mk [Topology.mk 0 1 5] none) = Except.error Err.notImplemented ∧
    MTID.pack (MTID.mk [Topology.mk 0 1 5] (some [(0x10 : Byte), 0x05])) =
      Except.ok [(0x10 : Byte), 0x05] := by
  refine ⟨by decide, ?_, ?_⟩
  · exact (claim7_pack [Topology.mk 0 1 5] [(0x10 : Byte), 0x05] (by decide)).1
  · exact (claim7_pack [Topology.mk 0 1 5] [(0x10 : Byte), 0x05] (by decide)).2

/-- Claim C7 counterexample: a field whose raw cache is present but empty has
pack fail instead of returning the cache, so presence alone does not suffice. -/
theorem claim7_counterexample :
    (MTID.mk [] (some ([] : List Byte))).packed.isSome = true ∧
    MTID.pack (MTID.mk [] (some ([] : List Byte))) ≠ Except.ok ([] : List Byte) ∧
    MTID.pack (MTID.mk [] (some ([] : List Byte))) = Except.error Err.notImplemented :=
  ⟨rfl, fun h => Except.noConfusion h, rfl⟩

/-- Claim C8: the bits field is rendered as exactly four left-zero-padded
binary digits and the id in decimal; decoding 0x10 0x05 yields one entry with
bits 1 and tid 5, rendered as the claimed record, and the field rendering
wraps the entry renderings in a comma-separated array. -/
theorem claim8_rendering (oid bits tid : Nat) (hbits : bits < 16) :
    (last4 ("0000" ++ binStr bits)).length = 4 ∧
    Topology.json (Topology.mk oid bits tid) =
      "\x7b \"bits\": \"" ++ last4 ("0000" ++ binStr bits) ++
        "\", \"multi-topology-id\": " ++ toString tid ++ " \x7d" ∧
    MTID.unpack 0 [(0x10 : Byte), 0x05] =
      Except.ok (MTID.mk [Topology.mk 0 1 5] (some [0x10, 0x05])) ∧
    Topology.json (Topology.mk 0 1 5) =
      "\x7b \"bits\": \"0001\", \"multi-topology-id\": 5 \x7d" ∧
    MTID.json (MTID.mk [Topology.mk 0 1 5] (some [0x10, 0x05])) =
      "[\x7b \"bits\": \"0001\", \"multi-topology-id\": 5 \x7d]" ∧
    MTID.json (MTID.mk [Topology.mk 0 1 5, Topology.mk 1 2 6] none) =
      "[\x7b \"bits\": \"0001\", \"multi-topology-id\": 5 \x7d, " ++
        "\x7b \"bits\": \"0010\", \"multi-topology-id\": 6 \x7d]" := by
  have h16 : ∀ b < 16, (last4 ("0000" ++ binStr b)).length = 4 := by decide
  exact ⟨h16 bits hbits, rfl, rfl, rfl, rfl, rfl⟩

/-- Claim C8 witness: the rendering facts at oid 0, bits 1, tid 5. -/
theorem claim8_witness :
    ((1 : Nat) < 16) ∧ (last4 ("0000" ++ binStr 1)).length = 4 ∧
    Topology.json (Topology.mk 0 1 5) =
      "\x7b \"bits\": \"" ++ last4 ("0000" ++ binStr 1) ++
        "\", \"multi-topology-id\": " ++ toString (5 : Nat) ++ " \x7d" :=
  ⟨by decide, (claim8_rendering 0 1 5 (by decide)).1, (claim8_rendering 0 1 5 (by decide)).2.1⟩

/-- Claim C9: the hash of a field is the string hash of its textual rendering,
the textual rendering is the colon-joined uppercase two-digit hexadecimal
rendering of the bytes pack returns, the example bytes 0x12 0x34 0xAB 0xCD
render as 12:34:AB:CD, and when pack fails, hashing fails with the same
error. -/
theorem claim9_hash (strHash : String → Nat) (m : MTID) :
    MTID.hashWith strHash m = (MTID.str m).map strHash ∧
    (∀ bs : List Byte, MTID.pack m = Except.ok bs →
      MTID.str m = Except.ok (String.intercalate ":" (bs.map hex2)) ∧
      MTID.hashWith strHash m =
        Except.ok (strHash (String.intercalate ":" (bs.map hex2)))) ∧
    (∀ e : Err, MTID.pack m = Except.error e →
      MTID.hashWith strHash m = Except.error e) ∧
    MTID.str (MTID.mk [] (some [(0x12 : Byte), 0x34, 0xAB, 0xCD])) =
      Except.ok "12:34:AB:CD" := by
  refine ⟨?_, ?_, ?_, rfl⟩
  · unfold MTID.hashWith
    cases MTID.str m <;> rfl
  · intro bs hbs
    constructor
    · unfold MTID.str
      rw [hbs]
    · unfold MTID.hashWith MTID.str
      rw [hbs]
  · intro e he
    unfold MTID.hashWith MTID.str
    rw [he]

/-- Claim C9 witness: the hash and rendering facts at the cached bytes
0x12 0x34 0xAB 0xCD with the string-length function standing for the hash. -/
theorem claim9_witness :
    MTID.pack (MTID.mk [] (some [(0x12 : Byte), 0x34, 0xAB, 0xCD])) =
      Except.ok [(0x12 : Byte), 0x34, 0xAB, 0xCD] ∧
    MTID.str (MTID.mk [] (some [(0x12 : Byte), 0x34, 0xAB, 0xCD])) =
      Except.ok (String.intercalate ":" ([(0x12 : Byte), 0x34, 0xAB, 0xCD].map hex2)) ∧
    MTID.hashWith String.length (MTID.mk [] (some [(0x12 : Byte), 0x34, 0xAB, 0xCD])) =
      Except.ok (String.length
        (String.intercalate ":" ([(0x12 : Byte), 0x34, 0xAB, 0xCD].map hex2))) :=
  ⟨rfl,
    ((claim9_hash String.length (MTID.mk [] (some [(0x12 : Byte), 0x34, 0xAB, 0xCD]))).2.1
      [(0x12 : Byte), 0x34, 0xAB, 0xCD] rfl).1,
    ((claim9_hash String.length (MTID.mk [] (some [(0x12 : Byte), 0x34, 0xAB, 0xCD]))).2.1
      [(0x12 : Byte), 0x34, 0xAB, 0xCD] rfl).2⟩

/-- Claim C10: decoding the empty byte sequence stores the empty cache, and
pack, str and hash on that field all raise, because Python truthiness treats
the empty byte string like an absent cache. -/
theorem claim10_empty_cache (strHash : String → Nat) :
    MTID.unpack 0 ([] : List Byte) = Except.ok (MTID.mk [] (some [])) ∧
    MTID.pack (MTID.mk [] (some ([] : List Byte))) = Except.error Err.notImplemented ∧
    MTID.pack (MTID.mk [] (some ([] : List Byte))) = MTID.pack (MTID.mk [] none) ∧
    MTID.str (MTID.mk [] (some ([] : List Byte))) = Except.error Err.notImplemented ∧
    MTID.hashWith strHash (MTID.mk [] (some ([] : List Byte))) =
      Except.error Err.notImplemented :=
  ⟨rfl, rfl, rfl, rfl, rfl⟩

end MT
